import Mathlib

/-
Verification of the research scoping workflow in
src/tao_code_from_scratch/research_agent_scope.py.

The workflow is a two-node state graph: a clarification decision node
(clarify_with_user) and a brief generation node (write_research_brief).
Each node makes one structured-output model call; the model service is an
external collaborator and is represented here by an explicit stub function
passed to each node, returning either a value of the expected schema or a
model error. The current date (get_today_str in the source) is likewise an
explicit parameter.
-/

namespace ResearchScope

/-- Message roles used by the source: HumanMessage and AIMessage from
langchain_core.messages. -/
inductive Role
  | human
  | ai
  deriving DecidableEq, Repr

/-- A role-tagged message. -/
structure Message where
  role : Role
  content : String
  deriving DecidableEq, Repr

/-- Rendering of a role for transcript output, as langchain_core's
get_buffer_string does. -/
def role_label : Role → String
  | Role.human => "Human"
  | Role.ai => "AI"

/-- Embedding of langchain_core.messages.get_buffer_string: renders the
message list as a single linear text block, one line per message. -/
def get_buffer_string (messages : List Message) : String :=
  String.intercalate "\n"
    (messages.map (fun m => role_label m.role ++ ": " ++ m.content))

/-- Modelled from the spec: the repository module state_scope is absent from
the sources. The Clarification Verdict schema holds a boolean plus a
clarification question and a verification statement; the field name
need_clarification follows its use in research_agent_scope.py line 56. -/
structure ClarifyWithUser where
  need_clarification : Bool
  question : String
  verification : String
  deriving DecidableEq, Repr

/-- Modelled from the spec: the repository module state_scope is absent from
the sources. The Research Brief schema is a single text field
research_brief, following its use in research_agent_scope.py line 90. -/
structure ResearchQuestion where
  research_brief : String
  deriving DecidableEq, Repr

/-- Modelled from the spec: the repository module state_scope is absent from
the sources. The workflow state carries the conversation messages, the
research brief and the supervisor message channel; a field is none when the
corresponding key is absent from the state dict, matching the use of
state.get in the source nodes. -/
structure AgentState where
  messages : Option (List Message)
  research_brief : Option String
  supervisor_messages : Option (List Message)
  deriving DecidableEq, Repr

/-- Failure modes of a model call: the service is unreachable, or the
payload cannot be coerced to the requested schema. -/
inductive ModelError
  | unreachable
  | schema_violation
  deriving DecidableEq, Repr

/-- Routing targets of the Command returned by clarify_with_user:
END (the string literal goto=END in the source) or the
write_research_brief node. -/
inductive Goto
  | goto_end
  | goto_write_research_brief
  deriving DecidableEq, Repr

/-- A partial state update as returned by a node: each field is some value
when the node's returned dict mentions the corresponding key. -/
structure StateUpdate where
  messages : Option (List Message)
  research_brief : Option String
  supervisor_messages : Option (List Message)
  deriving DecidableEq, Repr

/-- Embedding of langgraph.types.Command as used by clarify_with_user: a
routing target plus a state update. -/
structure Command where
  goto : Goto
  update : StateUpdate
  deriving DecidableEq, Repr

/-- Modelled from the spec: the repository module prompts is absent from the
sources; the spec states that the exact prompt templates are configuration
data whose only contract is that the current date and the full transcript
appear verbatim. Template for the Decider call. -/
def clarify_with_user_instructions (messages : String) (date : String) : String :=
  "Assess whether the user request needs clarification given these messages:\n"
    ++ messages ++ "\nThe current date is " ++ date

/-- Modelled from the spec: the repository module prompts is absent from the
sources; same contract as clarify_with_user_instructions. Template for the
Composer call. -/
def transform_messages_into_research_topic_prompt (messages : String) (date : String) : String :=
  "Transform these messages into a detailed research brief:\n"
    ++ messages ++ "\nThe current date is " ++ date

/-- The single-message request sent by clarify_with_user
(research_agent_scope.py lines 49-54): one human message holding the
rendered transcript of state.get of messages with default empty list,
plus the current date. -/
def clarify_request (today : String) (state : AgentState) : List Message :=
  [⟨Role.human,
    clarify_with_user_instructions (get_buffer_string ((state.messages).getD [])) today⟩]

/-- How clarify_with_user consumes the verdict (research_agent_scope.py
lines 56-65): on need_clarification, route to END appending an assistant
message with the question; otherwise route to write_research_brief
appending an assistant message with the verification. -/
def applyVerdict (response : ClarifyWithUser) : Command :=
  if response.need_clarification then
    ⟨Goto.goto_end, ⟨some [⟨Role.ai, response.question⟩], none, none⟩⟩
  else
    ⟨Goto.goto_write_research_brief, ⟨some [⟨Role.ai, response.verification⟩], none, none⟩⟩

/-- Embedding of the clarify_with_user node (research_agent_scope.py lines
34-65): one structured-output model call on the rendered transcript, then
the verdict is consumed by applyVerdict. A model failure propagates: the
source node has no exception handling. -/
def clarify_with_user (stub : List Message → Except ModelError ClarifyWithUser)
    (today : String) (state : AgentState) : Except ModelError Command :=
  (stub (clarify_request today state)).map applyVerdict

/-- The single-message request sent by write_research_brief
(research_agent_scope.py lines 81-86). -/
def brief_request (today : String) (state : AgentState) : List Message :=
  [⟨Role.human,
    transform_messages_into_research_topic_prompt
      (get_buffer_string ((state.messages).getD [])) today⟩]

/-- Embedding of the write_research_brief node (research_agent_scope.py
lines 67-92): one structured-output model call, then the returned dict sets
research_brief to the brief and supervisor_messages to one human message
holding the brief followed by a period; the messages key is not mentioned.
A model failure propagates. -/
def write_research_brief (stub : List Message → Except ModelError ResearchQuestion)
    (today : String) (state : AgentState) : Except ModelError StateUpdate :=
  (stub (brief_request today state)).map (fun response =>
    ⟨none, some response.research_brief,
      some [⟨Role.human, response.research_brief ++ "."⟩]⟩)

/-- Modelled from the spec: the state schema module state_scope is absent
from the sources; the spec states Conversation State accumulates
monotonically (appended to by each node), so the two message channels merge
an update by appending and the brief channel by overwriting; a field absent
from the update leaves the channel unchanged. -/
def applyUpdate (s : AgentState) (u : StateUpdate) : AgentState :=
  ⟨(match u.messages with
    | none => s.messages
    | some ms => some ((s.messages).getD [] ++ ms)),
   (match u.research_brief with
    | none => s.research_brief
    | some b => some b),
   (match u.supervisor_messages with
    | none => s.supervisor_messages
    | some ms => some ((s.supervisor_messages).getD [] ++ ms))⟩

/-- The nodes of the scoping graph built by deep_research_builder
(research_agent_scope.py lines 97-105), plus the implicit START and END
states of the graph library. -/
inductive Node
  | START
  | CLARIFY
  | WRITE
  | END
  deriving DecidableEq, Repr

/-- The pair of model stubs a run is executed against: one for the Decider
schema, one for the Composer schema. -/
structure Stubs where
  clarify : List Message → Except ModelError ClarifyWithUser
  compose : List Message → Except ModelError ResearchQuestion

/-- Translation of a Command routing target into a graph node. -/
def gotoNode : Goto → Node
  | Goto.goto_end => Node.END
  | Goto.goto_write_research_brief => Node.WRITE

/-- One step of the graph: the edge START to clarify_with_user
(research_agent_scope.py line 104), the Command routing out of
clarify_with_user, and the edge write_research_brief to END (line 105).
END is terminal: no step exists from it. -/
def step (st : Stubs) (today : String) :
    Node → AgentState → Option (Except ModelError (Node × AgentState))
  | Node.START, s => some (Except.ok (Node.CLARIFY, s))
  | Node.CLARIFY, s =>
      some ((clarify_with_user st.clarify today s).map
        (fun cmd => (gotoNode cmd.goto, applyUpdate s cmd.update)))
  | Node.WRITE, s =>
      some ((write_research_brief st.compose today s).map
        (fun u => (Node.END, applyUpdate s u)))
  | Node.END, _ => none

/-- Position of a node along the only possible execution order. -/
def rank : Node → Nat
  | Node.START => 0
  | Node.CLARIFY => 1
  | Node.WRITE => 2
  | Node.END => 3

/-- A whole run of the compiled graph: clarify_with_user first, then either
immediate termination or write_research_brief followed by END. An error at
either model call aborts the run with no final state. -/
def runWorkflow (st : Stubs) (today : String) (s : AgentState) :
    Except ModelError AgentState :=
  match clarify_with_user st.clarify today s with
  | Except.error e => Except.error e
  | Except.ok cmd =>
    let s1 := applyUpdate s cmd.update
    match cmd.goto with
    | Goto.goto_end => Except.ok s1
    | Goto.goto_write_research_brief =>
      match write_research_brief st.compose today s1 with
      | Except.error e => Except.error e
      | Except.ok u => Except.ok (applyUpdate s1 u)

/-- Concrete sample initial message, from the repository entry point
main.py. -/
def msg0 : Message :=
  ⟨Role.human, "I want to research the best coffee shops in San Francisco"⟩

/-- Concrete initial state with one triggering user message. -/
def s0 : AgentState := ⟨some [msg0], none, none⟩

/-- Concrete verdict requesting clarification. -/
def verdictT : ClarifyWithUser := ⟨true, "Could you clarify the topic?", ""⟩

/-- Concrete verdict confirming sufficient context. -/
def verdictF : ClarifyWithUser :=
  ⟨false, "", "Got it, researching coffee shops in SF"⟩

/-- Concrete composer output. -/
def briefR : ResearchQuestion :=
  ⟨"Identify the best coffee shops in San Francisco"⟩

/-- Deterministic stub pair whose Decider asks for clarification. -/
def stubT : Stubs :=
  ⟨fun _ => Except.ok verdictT, fun _ => Except.ok briefR⟩

/-- Deterministic stub pair whose Decider confirms and whose Composer
returns briefR. -/
def stubF : Stubs :=
  ⟨fun _ => Except.ok verdictF, fun _ => Except.ok briefR⟩

/-- Stub pair whose Decider call fails with a service error. -/
def stubErr : Stubs :=
  ⟨fun _ => Except.error ModelError.unreachable, fun _ => Except.ok briefR⟩

/-- C1: when the Decider verdict has need_clarification true,
clarify_with_user routes to END and appends exactly one assistant message
whose content is the verdict's question; the whole run then terminates with
that single appended message, the research brief channel untouched. -/
theorem C1_clarify_true_ends_with_question (st : Stubs) (today : String)
    (s : AgentState) (v : ClarifyWithUser)
    (hcall : st.clarify (clarify_request today s) = Except.ok v)
    (htrue : v.need_clarification = true) :
    clarify_with_user st.clarify today s =
      Except.ok ⟨Goto.goto_end, ⟨some [⟨Role.ai, v.question⟩], none, none⟩⟩ ∧
    runWorkflow st today s =
      Except.ok ⟨some (((s.messages).getD []) ++ [⟨Role.ai, v.question⟩]),
        s.research_brief, s.supervisor_messages⟩ := by
  have h1 : clarify_with_user st.clarify today s =
      Except.ok ⟨Goto.goto_end, ⟨some [⟨Role.ai, v.question⟩], none, none⟩⟩ := by
    simp [clarify_with_user, hcall, Except.map, applyVerdict, htrue]
  refine ⟨h1, ?_⟩
  simp [runWorkflow, h1, applyUpdate]

/-- C1 witness: the theorem applied to a concrete clarification run. -/
theorem C1_witness :
    clarify_with_user stubT.clarify "Mon Oct 12, 2026" s0 =
      Except.ok ⟨Goto.goto_end, ⟨some [⟨Role.ai, verdictT.question⟩], none, none⟩⟩ ∧
    runWorkflow stubT "Mon Oct 12, 2026" s0 =
      Except.ok ⟨some (((s0.messages).getD []) ++ [⟨Role.ai, verdictT.question⟩]),
        s0.research_brief, s0.supervisor_messages⟩ :=
  C1_clarify_true_ends_with_question stubT "Mon Oct 12, 2026" s0 verdictT rfl rfl

/-- C2: when the Decider verdict has need_clarification false,
clarify_with_user routes to write_research_brief and appends exactly one
assistant message whose content is the verdict's verification; moreover on
every verdict the update appends exactly one assistant message. -/
theorem C2_clarify_false_goes_to_brief (st : Stubs) (today : String)
    (s : AgentState) (v : ClarifyWithUser)
    (hcall : st.clarify (clarify_request today s) = Except.ok v)
    (hfalse : v.need_clarification = false) :
    clarify_with_user st.clarify today s =
      Except.ok ⟨Goto.goto_write_research_brief,
        ⟨some [⟨Role.ai, v.verification⟩], none, none⟩⟩ ∧
    ∀ w : ClarifyWithUser, ∃ m : Message,
      m.role = Role.ai ∧ (applyVerdict w).update.messages = some [m] := by
  constructor
  · simp [clarify_with_user, hcall, Except.map, applyVerdict, hfalse]
  · intro w
    cases hw : w.need_clarification
    · exact ⟨⟨Role.ai, w.verification⟩, rfl, by simp [applyVerdict, hw]⟩
    · exact ⟨⟨Role.ai, w.question⟩, rfl, by simp [applyVerdict, hw]⟩

/-- C2 witness: the theorem applied to a concrete verification run. -/
theorem C2_witness :
    clarify_with_user stubF.clarify "Mon Oct 12, 2026" s0 =
      Except.ok ⟨Goto.goto_write_research_brief,
        ⟨some [⟨Role.ai, verdictF.verification⟩], none, none⟩⟩ ∧
    ∀ w : ClarifyWithUser, ∃ m : Message,
      m.role = Role.ai ∧ (applyVerdict w).update.messages = some [m] :=
  C2_clarify_false_goes_to_brief stubF "Mon Oct 12, 2026" s0 verdictF rfl rfl

/-- C4: when the Decider model call fails, clarify_with_user propagates
exactly that failure, the run aborts with the same error and no successor
state of any kind, so no message is appended and no terminal node is
reached. -/
theorem C4_model_failure_propagates (st : Stubs) (today : String)
    (s : AgentState) (e : ModelError)
    (hcall : st.clarify (clarify_request today s) = Except.error e) :
    clarify_with_user st.clarify today s = Except.error e ∧
    runWorkflow st today s = Except.error e ∧
    ∀ target : Node × AgentState,
      step st today Node.CLARIFY s ≠ some (Except.ok target) := by
  have h1 : clarify_with_user st.clarify today s = Except.error e := by
    simp [clarify_with_user, hcall, Except.map]
  refine ⟨h1, ?_, ?_⟩
  · simp [runWorkflow, h1]
  · intro target h
    simp [step, h1, Except.map] at h

/-- C4 witness: the theorem applied to a concrete failing stub. -/
theorem C4_witness :
    clarify_with_user stubErr.clarify "Mon Oct 12, 2026" s0 =
      Except.error ModelError.unreachable ∧
    runWorkflow stubErr "Mon Oct 12, 2026" s0 =
      Except.error ModelError.unreachable ∧
    ∀ target : Node × AgentState,
      step stubErr "Mon Oct 12, 2026" Node.CLARIFY s0 ≠ some (Except.ok target) :=
  C4_model_failure_propagates stubErr "Mon Oct 12, 2026" s0
    ModelError.unreachable rfl

/-- C5: on a successful Composer call, write_research_brief stores the
model's research_brief in the run state, initializes the supervisor channel
with exactly one message whose content is the brief followed by a period,
and leaves the conversation messages unchanged: its update does not mention
the messages channel at all. -/
theorem C5_write_research_brief_effects
    (stub : List Message → Except ModelError ResearchQuestion)
    (today : String) (s : AgentState) (r : ResearchQuestion)
    (hcall : stub (brief_request today s) = Except.ok r) :
    ∃ u : StateUpdate,
      write_research_brief stub today s = Except.ok u ∧
      u.messages = none ∧
      u.research_brief = some r.research_brief ∧
      u.supervisor_messages = some [⟨Role.human, r.research_brief ++ "."⟩] ∧
      (applyUpdate s u).messages = s.messages ∧
      (applyUpdate s u).research_brief = some r.research_brief ∧
      (s.supervisor_messages = none →
        (applyUpdate s u).supervisor_messages =
          some [⟨Role.human, r.research_brief ++ "."⟩]) := by
  refine ⟨⟨none, some r.research_brief,
      some [⟨Role.human, r.research_brief ++ "."⟩]⟩, ?_, rfl, rfl, rfl, ?_, ?_, ?_⟩
  · simp [write_research_brief, hcall, Except.map]
  · simp [applyUpdate]
  · simp [applyUpdate]
  · intro hnone
    simp [applyUpdate, hnone]

/-- C5 witness: the theorem applied to a concrete successful Composer
call. -/
theorem C5_witness :
    ∃ u : StateUpdate,
      write_research_brief stubF.compose "Mon Oct 12, 2026" s0 = Except.ok u ∧
      u.messages = none ∧
      u.research_brief = some briefR.research_brief ∧
      u.supervisor_messages = some [⟨Role.human, briefR.research_brief ++ "."⟩] ∧
      (applyUpdate s0 u).messages = s0.messages ∧
      (applyUpdate s0 u).research_brief = some briefR.research_brief ∧
      (s0.supervisor_messages = none →
        (applyUpdate s0 u).supervisor_messages =
          some [⟨Role.human, briefR.research_brief ++ "."⟩]) :=
  C5_write_research_brief_effects stubF.compose "Mon Oct 12, 2026" s0 briefR rfl

/-- C7: each request sent by the Decider and by the Composer is a single
human message whose content contains the full rendered transcript and the
current date string verbatim. -/
theorem C7_requests_contain_transcript_and_date (today : String)
    (s : AgentState) :
    (∃ u v, clarify_request today s =
      [⟨Role.human, u ++ get_buffer_string ((s.messages).getD []) ++ v ++ today⟩]) ∧
    (∃ u v, brief_request today s =
      [⟨Role.human, u ++ get_buffer_string ((s.messages).getD []) ++ v ++ today⟩]) :=
  ⟨⟨"Assess whether the user request needs clarification given these messages:\n",
    "\nThe current date is ", rfl⟩,
   ⟨"Transform these messages into a detailed research brief:\n",
    "\nThe current date is ", rfl⟩⟩

/-- C8: the Decider is a function of the conversation messages alone: two
invocations against the same deterministic stub and date, on states with
identical messages, build the identical request, receive the identical
verdict and produce the identical routing command and state update. -/
theorem C8_decider_two_run_determinism
    (stub : List Message → Except ModelError ClarifyWithUser) (today : String)
    (s1 s2 : AgentState) (h : s1.messages = s2.messages) :
    clarify_request today s1 = clarify_request today s2 ∧
    stub (clarify_request today s1) = stub (clarify_request today s2) ∧
    clarify_with_user stub today s1 = clarify_with_user stub today s2 := by
  have hreq : clarify_request today s1 = clarify_request today s2 := by
    simp [clarify_request, h]
  exact ⟨hreq, by rw [hreq], by simp [clarify_with_user, hreq]⟩

/-- C8 witness: the theorem applied twice to the same concrete state. -/
theorem C8_witness :
    clarify_request "Mon Oct 12, 2026" s0 = clarify_request "Mon Oct 12, 2026" s0 ∧
    stubT.clarify (clarify_request "Mon Oct 12, 2026" s0) =
      stubT.clarify (clarify_request "Mon Oct 12, 2026" s0) ∧
    clarify_with_user stubT.clarify "Mon Oct 12, 2026" s0 =
      clarify_with_user stubT.clarify "Mon Oct 12, 2026" s0 :=
  C8_decider_two_run_determinism stubT.clarify "Mon Oct 12, 2026" s0 s0 rfl

/-- C9: a state whose messages field is absent behaves exactly as one whose
messages field is the empty list: both nodes substitute the empty list,
render the empty transcript into their prompt, and neither raises a
missing-key error. -/
theorem C9_missing_messages_no_error
    (stubC : List Message → Except ModelError ClarifyWithUser)
    (stubW : List Message → Except ModelError ResearchQuestion)
    (today : String) (rb : Option String) (sm : Option (List Message)) :
    get_buffer_string [] = "" ∧
    clarify_request today ⟨none, rb, sm⟩ = clarify_request today ⟨some [], rb, sm⟩ ∧
    clarify_with_user stubC today ⟨none, rb, sm⟩ =
      clarify_with_user stubC today ⟨some [], rb, sm⟩ ∧
    brief_request today ⟨none, rb, sm⟩ = brief_request today ⟨some [], rb, sm⟩ ∧
    write_research_brief stubW today ⟨none, rb, sm⟩ =
      write_research_brief stubW today ⟨some [], rb, sm⟩ :=
  ⟨rfl, rfl, rfl, rfl, rfl⟩

/-- C10: the verdict field not selected by the need_clarification boolean
never influences the routing command or state update produced from the
verdict. -/
theorem C10_unused_verdict_field_never_influences (v1 v2 : ClarifyWithUser)
    (hb : v1.need_clarification = v2.need_clarification)
    (hq : v1.need_clarification = true → v1.question = v2.question)
    (hv : v1.need_clarification = false → v1.verification = v2.verification) :
    applyVerdict v1 = applyVerdict v2 := by
  cases h1 : v1.need_clarification
  · have h2 : v2.need_clarification = false := by rw [← hb, h1]
    simp [applyVerdict, h1, h2, hv h1]
  · have h2 : v2.need_clarification = true := by rw [← hb, h1]
    simp [applyVerdict, h1, h2, hq h1]

/-- C10 witness: two verdicts differing only in the unused verification
field yield the same command. -/
theorem C10_witness :
    applyVerdict ⟨true, "Which city?", "alpha"⟩ =
      applyVerdict ⟨true, "Which city?", "beta"⟩ :=
  C10_unused_verdict_field_never_influences ⟨true, "Which city?", "alpha"⟩
    ⟨true, "Which city?", "beta"⟩ rfl (fun _ => rfl) (by decide)

/-- Helper: shape of a successful step out of the clarify node. -/
lemma step_clarify_ok (st : Stubs) (today : String) (s : AgentState)
    (n' : Node) (s1 : AgentState)
    (h : step st today Node.CLARIFY s = some (Except.ok (n', s1))) :
    ∃ v, st.clarify (clarify_request today s) = Except.ok v ∧
      n' = gotoNode (applyVerdict v).goto ∧
      s1 = applyUpdate s (applyVerdict v).update := by
  cases hc : st.clarify (clarify_request today s) with
  | error e => simp [step, clarify_with_user, hc, Except.map] at h
  | ok v =>
    simp [step, clarify_with_user, hc, Except.map] at h
    exact ⟨v, rfl, h.1.symm, h.2.symm⟩

/-- Helper: shape of a successful step out of the write node. -/
lemma step_write_ok (st : Stubs) (today : String) (s : AgentState)
    (n' : Node) (s1 : AgentState)
    (h : step st today Node.WRITE s = some (Except.ok (n', s1))) :
    n' = Node.END := by
  cases hc : st.compose (brief_request today s) with
  | error e => simp [step, write_research_brief, hc, Except.map] at h
  | ok r =>
    simp [step, write_research_brief, hc, Except.map] at h
    exact h.1.symm

/-- C6: the step relation admits no cycles: every run starts by entering
clarify_with_user from START, every successful step strictly increases the
node rank (so no node, in particular clarify_with_user, is ever re-entered),
the write node is entered only from clarify_with_user and only when the
verdict has need_clarification false, every successful step out of the
write node lands in END, and END has no outgoing step. -/
theorem C6_workflow_acyclic (st : Stubs) (today : String) :
    (∀ s : AgentState,
      step st today Node.START s = some (Except.ok (Node.CLARIFY, s))) ∧
    (∀ n s n' s1, step st today n s = some (Except.ok (n', s1)) →
      rank n < rank n') ∧
    (∀ n s s1, step st today n s = some (Except.ok (Node.CLARIFY, s1)) →
      n = Node.START) ∧
    (∀ n s s1, step st today n s = some (Except.ok (Node.WRITE, s1)) →
      n = Node.CLARIFY ∧ ∃ v, st.clarify (clarify_request today s) = Except.ok v ∧
        v.need_clarification = false) ∧
    (∀ s n' s1, step st today Node.WRITE s = some (Except.ok (n', s1)) →
      n' = Node.END) ∧
    (∀ s : AgentState, step st today Node.END s = none) := by
  refine ⟨fun s => rfl, ?_, ?_, ?_, ?_, fun s => rfl⟩
  · intro n s n' s1 h
    cases n with
    | START =>
      simp [step] at h
      rw [← h.1]
      decide
    | CLARIFY =>
      obtain ⟨v, hv, hn, hs⟩ := step_clarify_ok st today s n' s1 h
      cases hb : v.need_clarification <;>
        simp [hn, applyVerdict, hb, gotoNode, rank]
    | WRITE =>
      rw [step_write_ok st today s n' s1 h]
      decide
    | END => simp [step] at h
  · intro n s s1 h
    cases n with
    | START => rfl
    | CLARIFY =>
      obtain ⟨v, hv, hn, hs⟩ := step_clarify_ok st today s Node.CLARIFY s1 h
      cases hb : v.need_clarification <;>
        simp [applyVerdict, hb, gotoNode] at hn
    | WRITE => exact absurd (step_write_ok st today s Node.CLARIFY s1 h) (by decide)
    | END => simp [step] at h
  · intro n s s1 h
    cases n with
    | START => simp [step] at h
    | CLARIFY =>
      obtain ⟨v, hv, hn, hs⟩ := step_clarify_ok st today s Node.WRITE s1 h
      cases hb : v.need_clarification with
      | false => exact ⟨rfl, v, hv, hb⟩
      | true => simp [applyVerdict, hb, gotoNode] at hn
    | WRITE => exact absurd (step_write_ok st today s Node.WRITE s1 h) (by decide)
    | END => simp [step] at h
  · intro s n' s1 h
    exact step_write_ok st today s n' s1 h

/-- C6 witness: the initial transition of a concrete run. -/
theorem C6_witness :
    step stubT "Mon Oct 12, 2026" Node.START s0 =
      some (Except.ok (Node.CLARIFY, s0)) :=
  (C6_workflow_acyclic stubT "Mon Oct 12, 2026").1 s0

/-- C3 counterexample: on a concrete success run the Conversation State
grows from one message to two, so exactly one assistant message is appended
across the run, not two as claimed: the appended count 2 - 1 is not 2. -/
theorem C3_counterexample :
    runWorkflow stubF "Mon Oct 12, 2026" s0 =
      Except.ok ⟨some [msg0, ⟨Role.ai, "Got it, researching coffee shops in SF"⟩],
        some "Identify the best coffee shops in San Francisco",
        some [⟨Role.human, "Identify the best coffee shops in San Francisco."⟩]⟩ ∧
    (runWorkflow stubF "Mon Oct 12, 2026" s0).map
      (fun t => ((t.messages).getD []).length) = Except.ok 2 ∧
    ((s0.messages).getD []).length = 1 ∧
    ¬ (2 - 1 = 2) := by
  refine ⟨?_, ?_, rfl, by decide⟩ <;> rfl

/-- C3 amended: on a success run the workflow reaches END with a non-empty
brief stored separately; exactly one assistant message (the verification)
is appended to Conversation State across the run, and the brief goes to the
supervisor channel only. -/
theorem C3_amended_success_run (st : Stubs) (today : String) (s : AgentState)
    (v : ClarifyWithUser) (r : ResearchQuestion)
    (hcall : st.clarify (clarify_request today s) = Except.ok v)
    (hfalse : v.need_clarification = false)
    (hcompose : st.compose (brief_request today
        (applyUpdate s (applyVerdict v).update)) = Except.ok r)
    (hbrief : r.research_brief ≠ "") :
    runWorkflow st today s = Except.ok
      ⟨some (((s.messages).getD []) ++ [⟨Role.ai, v.verification⟩]),
       some r.research_brief,
       some (((s.supervisor_messages).getD []) ++
         [⟨Role.human, r.research_brief ++ "."⟩])⟩ ∧
    some r.research_brief ≠ some "" := by
  have h1 : clarify_with_user st.clarify today s =
      Except.ok ⟨Goto.goto_write_research_brief,
        ⟨some [⟨Role.ai, v.verification⟩], none, none⟩⟩ := by
    simp [clarify_with_user, hcall, Except.map, applyVerdict, hfalse]
  have hupdeq : applyVerdict v =
      ⟨Goto.goto_write_research_brief,
        ⟨some [⟨Role.ai, v.verification⟩], none, none⟩⟩ := by
    simp [applyVerdict, hfalse]
  rw [hupdeq] at hcompose
  have h2 : write_research_brief st.compose today
      (applyUpdate s ⟨some [⟨Role.ai, v.verification⟩], none, none⟩) =
      Except.ok ⟨none, some r.research_brief,
        some [⟨Role.human, r.research_brief ++ "."⟩]⟩ := by
    simp [write_research_brief, hcompose, Except.map]
  constructor
  · simp [applyUpdate] at h2
    simp [runWorkflow, h1, h2, applyUpdate]
  · simpa using hbrief

/-- C3 amended witness: the amended theorem applied to a concrete success
run. -/
theorem C3_amended_witness :
    runWorkflow stubF "Mon Oct 12, 2026" s0 = Except.ok
      ⟨some (((s0.messages).getD []) ++ [⟨Role.ai, verdictF.verification⟩]),
       some briefR.research_brief,
       some (((s0.supervisor_messages).getD []) ++
         [⟨Role.human, briefR.research_brief ++ "."⟩])⟩ ∧
    some briefR.research_brief ≠ some "" :=
  C3_amended_success_run stubF "Mon Oct 12, 2026" s0 verdictF briefR rfl rfl rfl
    (by decide)

end ResearchScope
